import Mathlib

/-!
Verification of the AI exam-proctoring client (src/frontend/exam.js,
src/frontend/enhanced_features.js, src/unnamed/part_000) against its
natural-language specification.  The browser client is embedded shallowly:
each handler becomes a pure function from the relevant fragment of the
page/network state to the effects it performs (fetches issued, notifications
shown, DOM fields written).  Components of the backend core that are not part
of the repository snapshot (ScoreAggregator, ViolationTracker, AlertEngine,
CalibrationManager) are modelled from the specification text, each marked as
such in its doc comment.
-/

namespace Proctoring

/-- The status banner rendered by `updateExamStatus` (exam.js): the text shown
and the colour key passed in. -/
structure ExamStatus where
  text : String
  color : String
deriving DecidableEq, Repr

/-- The client state relevant to the session lifecycle: the `examRunning`
flag (exam.js line 4) and the currently displayed status banner. -/
structure ClientState where
  examRunning : Bool
  status : ExamStatus
deriving DecidableEq, Repr

/-- A notification shown by `showNotification(message, type)`. -/
structure Notif where
  message : String
  ntype : String
deriving DecidableEq, Repr

/-- Outcome of the `fetch` in `startExam`: the response resolved with
`res.ok` true, resolved with `res.ok` false, or the promise rejected
(network error). -/
inductive StartOutcome where
  | ok
  | notOk
  | networkError
deriving DecidableEq, Repr

/-- Outcome of the `fetch` in `stopExam`: the handler attaches `.then(() => …)`
with no `res.ok` test, so any resolved response takes the success path; only a
rejected promise takes `.catch`. -/
inductive StopOutcome where
  | resolved
  | networkError
deriving DecidableEq, Repr

/-- Effects of one call of `startExam` or `stopExam`: whether the backend
fetch was issued, the client state afterwards, and the notifications shown. -/
structure CallEffects where
  fetchIssued : Bool
  newState : ClientState
  notifs : List Notif
deriving DecidableEq, Repr

/-- `startExam` (exam.js lines 6-21): issues the `/start_exam` fetch; on an
`ok` response sets `examRunning` to true, shows the green running banner and a
success notification; on a non-ok response or a network error leaves the state
alone and shows an error notification. -/
def startExam (s : ClientState) (o : StartOutcome) : CallEffects :=
  match o with
  | .ok =>
      { fetchIssued := true
        newState := { examRunning := true, status := ⟨"Exam Running", "green"⟩ }
        notifs := [⟨"Exam started successfully", "success"⟩] }
  | .notOk =>
      { fetchIssued := true, newState := s
        notifs := [⟨"Failed to start exam", "error"⟩] }
  | .networkError =>
      { fetchIssued := true, newState := s
        notifs := [⟨"Backend not reachable", "error"⟩] }

/-- `stopExam` (exam.js lines 26-40): if `examRunning` is false it shows an
error notification and returns before the fetch; otherwise it issues the
`/stop_exam` fetch and, on any resolved response, clears `examRunning` and
shows the red stopped banner. -/
def stopExam (s : ClientState) (o : StopOutcome) : CallEffects :=
  if s.examRunning = false then
    { fetchIssued := false, newState := s
      notifs := [⟨"Cannot stop exam - exam is not started yet!", "error"⟩] }
  else
    match o with
    | .resolved =>
        { fetchIssued := true
          newState := { examRunning := false, status := ⟨"Exam Stopped", "red"⟩ }
          notifs := [⟨"Exam stopped", "info"⟩] }
    | .networkError =>
        { fetchIssued := true, newState := s, notifs := [] }

/-- The `visibilitychange` listener (exam.js lines 167-175): the POST to
`/tab_switched` (and the warning notification) happen exactly when the
document is hidden and `examRunning` is true; otherwise the handler does
nothing at all — it keeps no queue and no pending work.  Returns whether the
POST was issued and the notifications shown. -/
def visibilityHandler (hidden : Bool) (examRunning : Bool) : Bool × List Notif :=
  if hidden && examRunning then
    (true, [⟨"Warning: Tab switching detected!", "error"⟩])
  else
    (false, [])

/-- The score-colour branch of the suspicion-score polling handler
(exam.js lines 103-109): red at 50 and above, yellow from 25 to 49,
white below 25. -/
def scoreColorClass (newScore : Int) : String :=
  if newScore ≥ 50 then "text-2xl font-bold text-red-400"
  else if newScore ≥ 25 then "text-2xl font-bold text-yellow-400"
  else "text-2xl font-bold text-white"

/-- The JSON body returned by `/latest_alert` as the polling handler reads it
(exam.js lines 118-147).  A field the backend omitted is the empty string,
matching how `data.message || data.alert || ""` treats `undefined`. -/
structure AlertResponse where
  message : String
  alert : String
  level : String
  time : String
deriving DecidableEq, Repr

/-- The JavaScript coalescing `data.message || data.alert || ""`:
an empty (falsy) string falls through to the next operand. -/
def coalescedMessage (d : AlertResponse) : String :=
  if d.message ≠ "" then d.message
  else if d.alert ≠ "" then d.alert
  else ""

/-- What the alert section displays after one poll of `/latest_alert`:
hidden, or shown with a message and a time string. -/
inductive AlertDisplay where
  | hidden
  | shown (message : String) (time : String)
deriving DecidableEq, Repr

/-- The `/latest_alert` polling handler (exam.js lines 118-147): it computes
the coalesced message; when that is empty it hides `alertSection` and returns,
otherwise it reveals the section and writes the message into `alertBox` and
the time into `alertTime`. -/
def latestAlertHandler (d : AlertResponse) : AlertDisplay :=
  let message := coalescedMessage d
  if message = "" then .hidden
  else .shown message d.time

/-- Per-severity alert counts as in the `by_severity` object of the
statistics payload. -/
structure SeverityCounts where
  critical : Nat
  warning : Nat
  info : Nat
deriving DecidableEq, Repr

/-- The statistics payload consumed by `displayAlertStatistics`
(enhanced_features.js lines 166-203, src/unnamed/part_000 lines 401-438). -/
structure AlertStatistics where
  total_alerts : Nat
  by_severity : SeverityCounts
deriving DecidableEq, Repr

/-- `displayAlertStatistics` (enhanced_features.js lines 166-203): the modal
content interpolates exactly four numbers, in this order: `stats.total_alerts`,
`stats.by_severity.critical`, `stats.by_severity.warning`,
`stats.by_severity.info`. -/
def displayAlertStatistics (stats : AlertStatistics) : List Nat :=
  [ stats.total_alerts
  , stats.by_severity.critical
  , stats.by_severity.warning
  , stats.by_severity.info ]

/-- The JSON body the client reads back from `/api/calibration/next`
(src/unnamed/part_000 lines 329-349): an outer `status` and, inside
`data.result`, the result `status`; or a rejected fetch. -/
inductive CalibResponse where
  | json (status : String) (resultStatus : String)
  | networkError
deriving DecidableEq, Repr

/-- What `nextCalibrationStep` does with the response. -/
inductive CalibAction where
  | completeWizard
  | showNextStep
  | noAction
  | errorNotif
deriving DecidableEq, Repr

/-- `nextCalibrationStep` (src/unnamed/part_000 lines 329-349): on outer
status `success` with result status `completed` it shows the success
notification and closes the wizard; on `success` with any other result it
shows the next step; a non-success outer status does nothing; a network
error shows an error notification. -/
def nextCalibrationStep (r : CalibResponse) : CalibAction :=
  match r with
  | .json s rs =>
      if s = "success" then
        if rs = "completed" then .completeWizard else .showNextStep
      else .noAction
  | .networkError => .errorNotif

/-- The JSON body read back from `/api/face_recognition/verify_quick`
(enhanced_features.js lines 6-36): outer `status`, and inside
`data.verification` the `verified` flag and a message; or a rejected fetch /
JSON parse failure, which takes `.catch`. -/
inductive VerifyResponse where
  | json (status : String) (verified : Bool) (vmessage : String)
  | networkError
deriving DecidableEq, Repr

/-- `verifyFaceBeforeExam` (enhanced_features.js lines 6-36): every branch —
success-and-verified, success-but-unverified, non-success status, and the
`.catch` — calls `resolve`, never `reject`; being a total Lean function, this
embedding resolves on every input.  It resolves `true` exactly on a `success`
status with `verification.verified` true. -/
def verifyFaceBeforeExam (r : VerifyResponse) : Bool :=
  match r with
  | .json s v _ => if s = "success" then v else false
  | .networkError => false

/-- `startExamWithVerification` (enhanced_features.js lines 71-80): awaits
`verifyFaceBeforeExam` and calls `startExam` exactly when it resolved true;
otherwise it shows a failure notification.  Returns whether `startExam` was
invoked. -/
def startExamWithVerification (r : VerifyResponse) : Bool :=
  if verifyFaceBeforeExam r then true else false

/-- Modelled from the spec: `DetectionEvent.kind`, the closed enumeration of
detector kinds (spec §3); the backend core that defines it is not part of the
repository snapshot. -/
inductive EventKind where
  | FaceMissing
  | MultipleFaces
  | HeadMovement
  | BackgroundVoice
  | TabSwitch
deriving DecidableEq, Repr

/-- Modelled from the spec: alert severity tiers (spec §3). -/
inductive Severity where
  | SevInfo
  | SevWarning
  | SevCritical
deriving DecidableEq, Repr

/-- Modelled from the spec: base severity per kind (spec §4.4):
`MultipleFaces → Critical`, all other kinds `→ Warning`. -/
def baseSeverity : EventKind → Severity
  | .MultipleFaces => .SevCritical
  | .FaceMissing => .SevWarning
  | .HeadMovement => .SevWarning
  | .BackgroundVoice => .SevWarning
  | .TabSwitch => .SevWarning

/-- Modelled from the spec: the severity assigned by `AlertEngine.onViolation`
(spec §4.4), where `count` is the post-increment same-kind count within the
rolling window reported by `ViolationTracker.recordAndCount`: on the 3rd and
every subsequent occurrence the severity is forced to Critical, otherwise it
is the kind's base tier. -/
def alertSeverity (kind : EventKind) (count : Nat) : Severity :=
  if 3 ≤ count then .SevCritical else baseSeverity kind

/-- Modelled from the spec: per-kind violation window state
(spec §3, ViolationCounter). -/
structure KindWindow where
  count : Nat
  windowStart : Nat
deriving DecidableEq, Repr

/-- Modelled from the spec: the rolling-window duration, 60 seconds
(spec §3). -/
def windowDuration : Nat := 60

/-- Modelled from the spec: `ViolationTracker.recordAndCount` for one kind
(spec §4.3): if no window is open or the window elapsed without an event of
this kind, a fresh window starts with count 1; otherwise the count increments.
Returns the post-increment count and the new window. -/
def recordAndCount (w : Option KindWindow) (now : Nat) : Nat × KindWindow :=
  match w with
  | none => (1, ⟨1, now⟩)
  | some kw =>
      if kw.windowStart + windowDuration < now then (1, ⟨1, now⟩)
      else (kw.count + 1, ⟨kw.count + 1, kw.windowStart⟩)

/-- Modelled from the spec: an `Alert` record as created by
`AlertEngine.onViolation` (spec §3, §4.4). -/
structure Alert where
  message : String
  severity : Severity
  createdAt : Nat
  sourceKind : EventKind
deriving DecidableEq, Repr

/-- Modelled from the spec: `AlertEngine.onViolation` (spec §4.4) builds one
new alert for the given event kind and post-increment count, with the
escalated severity. -/
def onViolation (kind : EventKind) (count : Nat) (now : Nat) (msg : String) : Alert :=
  { message := msg, severity := alertSeverity kind count
    createdAt := now, sourceKind := kind }

/-- Modelled from the spec: the AlertEngine's in-memory alert log
(spec §4.4), newest first. -/
structure EngineState where
  history : List Alert
deriving DecidableEq, Repr

/-- Modelled from the spec: `statistics()` (spec §4.4, §6) aggregates counts
by severity over the alert history as a pure read: it returns the total and
the per-severity counts together with the engine state it leaves behind,
which is the input state untouched. -/
def statisticsOp (st : EngineState) : AlertStatistics × EngineState :=
  ( { total_alerts := st.history.length
      by_severity :=
        { critical := (st.history.filter (fun a => a.severity = .SevCritical)).length
          warning := (st.history.filter (fun a => a.severity = .SevWarning)).length
          info := (st.history.filter (fun a => a.severity = .SevInfo)).length } }
  , st )

/-- Modelled from the spec: the suspicion score is clamped to `[0, 100]`
(spec §4.2). -/
def clampScore (x : ℚ) : ℚ := max 0 (min 100 x)

/-- Modelled from the spec: `ScoreAggregator.applyEvent` (spec §4.2): each
accepted event adds `event.weight` to the score, clamped to `[0, 100]`. -/
def applyEvent (score weight : ℚ) : ℚ := clampScore (score + weight)

/-- Modelled from the spec: `ScoreAggregator.tick` (spec §4.2):
`score = max(0, score - decayRate * dt)` — decay moves the score toward 0,
never below 0, and never increases it. -/
def tick (score decayRate dt : ℚ) : ℚ := max 0 (score - decayRate * dt)

/-- One step observed by the score while the session is running: an accepted
event application or a decay tick with its rate and elapsed seconds. -/
inductive ScoreStep where
  | event (weight : ℚ)
  | decay (decayRate dt : ℚ)

/-- A step is well-formed when a decay tick has a nonnegative rate and
nonnegative elapsed time (spec §4.2: a fixed decay rate per elapsed second). -/
def ValidStep : ScoreStep → Prop
  | .event _ => True
  | .decay r dt => 0 ≤ r ∧ 0 ≤ dt

instance : DecidablePred ValidStep := fun s =>
  match s with
  | .event _ => inferInstanceAs (Decidable True)
  | .decay r dt => inferInstanceAs (Decidable (0 ≤ r ∧ 0 ≤ dt))

/-- Apply one score step. -/
def stepScore (s : ℚ) : ScoreStep → ℚ
  | .event w => applyEvent s w
  | .decay r dt => tick s r dt

/-- Every observation point of the score along a sequence of steps: the
initial score and the score after each step. -/
def scoreTrace (s : ℚ) : List ScoreStep → List ℚ
  | [] => [s]
  | st :: rest => s :: scoreTrace (stepScore s st) rest

/-- Modelled from the spec: CalibrationManager progress (spec §4.6): the index
of the current step in the fixed ordered sequence and the number of steps. -/
structure CalibState where
  currentStep : Nat
  totalSteps : Nat
deriving DecidableEq, Repr

/-- Result of `CalibrationManager.advance` (spec §4.6). -/
inductive AdvanceResult where
  | NextStep (index : Nat)
  | Completed
deriving DecidableEq, Repr

/-- Modelled from the spec: `CalibrationManager.advance` (spec §4.6): while
steps remain it moves to the next step; at or past the last step it returns
`Completed` without error, leaving progress pinned past the last step, so
repeated calls keep returning `Completed`. -/
def advance (st : CalibState) : AdvanceResult × CalibState :=
  if st.currentStep + 1 < st.totalSteps then
    (.NextStep (st.currentStep + 1), { st with currentStep := st.currentStep + 1 })
  else
    (.Completed, { st with currentStep := st.totalSteps })

/-! ## Helper lemmas -/

/-- The clamped score always lies in `[0, 100]`. -/
theorem clampScore_bounds (x : ℚ) : 0 ≤ clampScore x ∧ clampScore x ≤ 100 := by
  unfold clampScore
  constructor
  · exact le_max_left 0 _
  · exact max_le (by norm_num) (min_le_left 100 x)

/-- A decay tick with nonnegative rate and elapsed time never pushes the
score below 0 and never raises it. -/
theorem tick_bounds (s r dt : ℚ) (hs : 0 ≤ s) (hr : 0 ≤ r) (hdt : 0 ≤ dt) :
    0 ≤ tick s r dt ∧ tick s r dt ≤ s := by
  unfold tick
  refine ⟨le_max_left 0 _, max_le hs ?_⟩
  have : 0 ≤ r * dt := mul_nonneg hr hdt
  linarith

/-- One well-formed score step preserves the `[0, 100]` range. -/
theorem stepScore_bounds (s : ℚ) (st : ScoreStep)
    (hs0 : 0 ≤ s) (hs1 : s ≤ 100) (hv : ValidStep st) :
    0 ≤ stepScore s st ∧ stepScore s st ≤ 100 := by
  cases st with
  | event w => exact clampScore_bounds (s + w)
  | decay r dt =>
      obtain ⟨hr, hdt⟩ := hv
      obtain ⟨h0, hle⟩ := tick_bounds s r dt hs0 hr hdt
      exact ⟨h0, le_trans hle hs1⟩

/-- Every observation point along a run of well-formed steps from an in-range
score stays in `[0, 100]`. -/
theorem scoreTrace_bounds (steps : List ScoreStep) :
    ∀ (s : ℚ), 0 ≤ s → s ≤ 100 → (∀ st ∈ steps, ValidStep st) →
      ∀ x ∈ scoreTrace s steps, 0 ≤ x ∧ x ≤ 100 := by
  induction steps with
  | nil =>
      intro s hs0 hs1 _ x hx
      simp only [scoreTrace, List.mem_singleton] at hx
      subst hx
      exact ⟨hs0, hs1⟩
  | cons st rest ih =>
      intro s hs0 hs1 hv x hx
      simp only [scoreTrace, List.mem_cons] at hx
      rcases hx with rfl | hx
      · exact ⟨hs0, hs1⟩
      · have hstep := stepScore_bounds s st hs0 hs1 (hv st (by simp))
        exact ih (stepScore s st) hstep.1 hstep.2
          (fun t ht => hv t (by simp [ht])) x hx

/-- The alert history length splits into the three per-severity filter
counts, because severity is a closed three-way enumeration. -/
theorem length_eq_severity_split (l : List Alert) :
    l.length =
      (l.filter (fun a => a.severity = Severity.SevCritical)).length +
      (l.filter (fun a => a.severity = Severity.SevWarning)).length +
      (l.filter (fun a => a.severity = Severity.SevInfo)).length := by
  induction l with
  | nil => simp
  | cons a l ih =>
      cases h : a.severity <;>
        simp [List.filter_cons, h, ih] <;> omega

/-! ## Claim theorems -/

/-- C1: a call of `stopExam` while the session is not running (`examRunning`
false, i.e. NotStarted or Stopped) reports a NotRunning-style error
notification, issues no `/stop_exam` fetch, and mutates no session state:
the client state is returned unchanged, whatever the network would have
answered. -/
theorem stop_not_running_is_error_no_request (s : ClientState) (o : StopOutcome)
    (h : s.examRunning = false) :
    (stopExam s o).fetchIssued = false ∧
    (stopExam s o).newState = s ∧
    (stopExam s o).notifs =
      [⟨"Cannot stop exam - exam is not started yet!", "error"⟩] := by
  simp [stopExam, h]

/-- Witness for C1 at the freshly loaded client (not running), with a
resolved network outcome. -/
theorem stop_not_running_is_error_no_request_witness :
    (ClientState.mk false ⟨"Exam Stopped", "red"⟩).examRunning = false ∧
    ((stopExam ⟨false, ⟨"Exam Stopped", "red"⟩⟩ StopOutcome.resolved).fetchIssued = false ∧
     (stopExam ⟨false, ⟨"Exam Stopped", "red"⟩⟩ StopOutcome.resolved).newState =
       ⟨false, ⟨"Exam Stopped", "red"⟩⟩ ∧
     (stopExam ⟨false, ⟨"Exam Stopped", "red"⟩⟩ StopOutcome.resolved).notifs =
       [⟨"Cannot stop exam - exam is not started yet!", "error"⟩]) :=
  ⟨rfl, stop_not_running_is_error_no_request ⟨false, ⟨"Exam Stopped", "red"⟩⟩
    StopOutcome.resolved rfl⟩

/-- C2: the `visibilitychange` handler issues the POST to `/tab_switched`
exactly when the document is hidden and `examRunning` is true; when the
session is not running the handler's whole effect is `(false, [])` — no
fetch, no notification, nothing queued for later submission. -/
theorem tab_switch_only_when_running (hidden examRunning : Bool) :
    (visibilityHandler hidden examRunning).1 = (hidden && examRunning) ∧
    visibilityHandler hidden false = (false, []) := by
  cases hidden <;> cases examRunning <;> simp [visibilityHandler]

/-- C3: the 3rd and every subsequent same-kind occurrence within the rolling
window yields an alert whose severity is Critical, regardless of the kind's
base tier. -/
theorem third_occurrence_critical (kind : EventKind) (count now : Nat)
    (msg : String) (h : 3 ≤ count) :
    (onViolation kind count now msg).severity = Severity.SevCritical := by
  simp [onViolation, alertSeverity, h]

/-- Witness for C3 at a kind whose base tier is Warning (`TabSwitch`) and
count exactly 3. -/
theorem third_occurrence_critical_witness :
    3 ≤ 3 ∧
    (onViolation EventKind.TabSwitch 3 1000 "Tab switching detected").severity =
      Severity.SevCritical :=
  ⟨by decide, third_occurrence_critical EventKind.TabSwitch 3 1000
    "Tab switching detected" (by decide)⟩

/-- C4: starting from any in-range score, along any sequence of accepted
events and well-formed decay ticks, the suspicion score lies in `[0, 100]`
at every observation point; each accepted event is applied clamped to the
range, and each decay tick keeps the score at or above 0 and never raises
it. -/
theorem suspicion_score_in_range (s : ℚ) (steps : List ScoreStep)
    (hs0 : 0 ≤ s) (hs1 : s ≤ 100) (hv : ∀ st ∈ steps, ValidStep st) :
    (∀ x ∈ scoreTrace s steps, 0 ≤ x ∧ x ≤ 100) ∧
    (∀ w : ℚ, 0 ≤ applyEvent s w ∧ applyEvent s w ≤ 100) ∧
    (∀ r dt : ℚ, 0 ≤ r → 0 ≤ dt → 0 ≤ tick s r dt ∧ tick s r dt ≤ s) :=
  ⟨scoreTrace_bounds steps s hs0 hs1 hv,
   fun w => clampScore_bounds (s + w),
   fun r dt hr hdt => tick_bounds s r dt hs0 hr hdt⟩

/-- Witness for C4 at score 30: hypotheses hold for the empty step list, and
a decay tick of rate 1 over 5 seconds stays in `[0, 30]`. -/
theorem suspicion_score_in_range_witness :
    (0 : ℚ) ≤ 30 ∧ (30 : ℚ) ≤ 100 ∧
    (0 ≤ tick 30 1 5 ∧ tick 30 1 5 ≤ 30) :=
  ⟨by norm_num, by norm_num,
   (suspicion_score_in_range 30 [] (by norm_num) (by norm_num)
      (by simp)).2.2 1 5 (by norm_num) (by norm_num)⟩

/-- C5: `startExam` marks the session running (sets `examRunning` and shows
the green "Exam Running" banner) exactly on an ok response; on a non-ok
response or a network error the client state is unchanged — in particular not
Running unless it already was — and an error notification surfaces the
failure, so a retry remains possible. -/
theorem start_failure_not_running (s : ClientState) (o : StartOutcome) :
    (o = StartOutcome.ok →
      (startExam s o).newState = ⟨true, ⟨"Exam Running", "green"⟩⟩) ∧
    (o ≠ StartOutcome.ok →
      (startExam s o).newState = s ∧
      ∃ n ∈ (startExam s o).notifs, n.ntype = "error") := by
  cases o <;> simp [startExam]

/-- Witness for C5 at a not-yet-started client and a non-ok response. -/
theorem start_failure_not_running_witness :
    StartOutcome.notOk ≠ StartOutcome.ok ∧
    ((startExam ⟨false, ⟨"Not Started", "gray"⟩⟩ StartOutcome.notOk).newState =
       ⟨false, ⟨"Not Started", "gray"⟩⟩ ∧
     ∃ n ∈ (startExam ⟨false, ⟨"Not Started", "gray"⟩⟩ StartOutcome.notOk).notifs,
       n.ntype = "error") :=
  ⟨by decide,
   (start_failure_not_running ⟨false, ⟨"Not Started", "gray"⟩⟩
      StartOutcome.notOk).2 (by decide)⟩

/-- C6: one poll of `/latest_alert` hides the alert section exactly when the
returned message (after the `data.message || data.alert || ""` coalescing)
is empty — empty means no active alert — and otherwise shows that message
together with the returned time. -/
theorem latest_alert_empty_hides (d : AlertResponse) :
    (coalescedMessage d = "" → latestAlertHandler d = AlertDisplay.hidden) ∧
    (coalescedMessage d ≠ "" →
      latestAlertHandler d = AlertDisplay.shown (coalescedMessage d) d.time) := by
  constructor <;> intro h <;> simp [latestAlertHandler, h]

/-- Witness for C6 at a response carrying a nonempty message. -/
theorem latest_alert_empty_hides_witness :
    coalescedMessage ⟨"Face missing", "", "warning", "12:00:00"⟩ ≠ "" ∧
    latestAlertHandler ⟨"Face missing", "", "warning", "12:00:00"⟩ =
      AlertDisplay.shown "Face missing" "12:00:00" :=
  ⟨by decide,
   (latest_alert_empty_hides ⟨"Face missing", "", "warning", "12:00:00"⟩).2
     (by decide)⟩

/-- C7: the statistics read returns a total together with per-severity
counts for critical, warning and info — the total being exactly their sum —
it leaves the engine state untouched (a pure read), and the client modal
renders exactly those four fields. -/
theorem statistics_pure_read_four_fields (st : EngineState) :
    (statisticsOp st).2 = st ∧
    (statisticsOp st).1.total_alerts =
      (statisticsOp st).1.by_severity.critical +
      (statisticsOp st).1.by_severity.warning +
      (statisticsOp st).1.by_severity.info ∧
    displayAlertStatistics (statisticsOp st).1 =
      [ (statisticsOp st).1.total_alerts
      , (statisticsOp st).1.by_severity.critical
      , (statisticsOp st).1.by_severity.warning
      , (statisticsOp st).1.by_severity.info ] := by
  refine ⟨rfl, ?_, rfl⟩
  simpa [statisticsOp] using length_eq_severity_split st.history

/-- C8: once calibration is past its last step, `advance` returns `Completed`
without error, the resulting state is still past the last step, and a second
`advance` again returns `Completed`; the client's `nextCalibrationStep`
treats a `completed` result status as successful completion (closing the
wizard), not as an error. -/
theorem advance_idempotent_past_end (st : CalibState)
    (h : st.totalSteps ≤ st.currentStep) :
    (advance st).1 = AdvanceResult.Completed ∧
    ((advance st).2).totalSteps ≤ ((advance st).2).currentStep ∧
    (advance (advance st).2).1 = AdvanceResult.Completed ∧
    nextCalibrationStep (CalibResponse.json "success" "completed") =
      CalibAction.completeWizard := by
  have h1 : ¬ st.currentStep + 1 < st.totalSteps := by omega
  have h2 : ¬ st.totalSteps + 1 < st.totalSteps := by omega
  refine ⟨?_, ?_, ?_, by decide⟩
  · simp [advance, h1]
  · simp [advance, h1]
  · simp [advance, h1, h2]

/-- Witness for C8 at a four-step calibration that has finished all four
steps. -/
theorem advance_idempotent_past_end_witness :
    (CalibState.mk 4 4).totalSteps ≤ (CalibState.mk 4 4).currentStep ∧
    ((advance ⟨4, 4⟩).1 = AdvanceResult.Completed ∧
     ((advance ⟨4, 4⟩).2).totalSteps ≤ ((advance ⟨4, 4⟩).2).currentStep ∧
     (advance (advance ⟨4, 4⟩).2).1 = AdvanceResult.Completed ∧
     nextCalibrationStep (CalibResponse.json "success" "completed") =
       CalibAction.completeWizard) :=
  ⟨by decide, advance_idempotent_past_end ⟨4, 4⟩ (by decide)⟩

/-- C9: the colour class written for a polled score is a function of the
score alone with fixed thresholds: red at 50 and above, yellow from 25 up to
but excluding 50, white below 25. -/
theorem score_color_thresholds (score : Int) :
    (50 ≤ score → scoreColorClass score = "text-2xl font-bold text-red-400") ∧
    (25 ≤ score → score < 50 →
      scoreColorClass score = "text-2xl font-bold text-yellow-400") ∧
    (score < 25 → scoreColorClass score = "text-2xl font-bold text-white") := by
  refine ⟨fun h => ?_, fun h1 h2 => ?_, fun h => ?_⟩
  · simp [scoreColorClass, h]
  · have hn : ¬ (50 : Int) ≤ score := by omega
    simp [scoreColorClass, hn, h1]
  · have hn : ¬ (50 : Int) ≤ score := by omega
    have hn2 : ¬ (25 : Int) ≤ score := by omega
    simp [scoreColorClass, hn, hn2]

/-- Witness for C9 at score 30, in the yellow band. -/
theorem score_color_thresholds_witness :
    (25 : Int) ≤ 30 ∧ (30 : Int) < 50 ∧
    scoreColorClass 30 = "text-2xl font-bold text-yellow-400" :=
  ⟨by decide, by decide,
   (score_color_thresholds 30).2.1 (by decide) (by decide)⟩

/-- C10: the face-verification gate is total on every response shape
(it resolves on every input — the `.catch` branch resolves false rather than
rejecting): it resolves true exactly on a success status with a verified
result, false on non-success, unverified, or network error; and
`startExamWithVerification` invokes `startExam` exactly when it resolved
true. -/
theorem verification_gate (r : VerifyResponse) :
    (verifyFaceBeforeExam r = true ↔
      ∃ m, r = VerifyResponse.json "success" true m) ∧
    startExamWithVerification r = verifyFaceBeforeExam r := by
  constructor
  · cases r with
    | json s v m =>
        by_cases hs : s = "success"
        · simp [verifyFaceBeforeExam, hs]
        · simp only [verifyFaceBeforeExam, hs, if_false]
          constructor
          · intro h
            exact absurd h (by simp)
          · rintro ⟨m', hm⟩
            exact absurd ((VerifyResponse.json.injEq .. ▸ hm).1) hs
    | networkError => simp [verifyFaceBeforeExam]
  · unfold startExamWithVerification
    cases verifyFaceBeforeExam r <;> simp

end Proctoring
